import Mathlib

/-!
Verification of the request-observability pipeline of the
go-chi-observability-template repository.

The Go source is shallowly embedded: every handler is translated into a pure
Lean function that, given the decoded request body and the request identity
taken from the execution scope, returns the ordered list of caller-visible
effects it performs (span operations, metric samples, log records, response
header writes and the response itself).  `float64` values are modelled by the
type `F` below: finite values are carried exactly as rationals (none of the
verified properties depends on rounding) and the non-finite values NaN and
±Inf are explicit constructors with IEEE-754 propagation rules, matching Go's
float64 arithmetic on the inputs exercised here.
-/

namespace GoObs

/-- Model of a Go `float64`: an exact finite rational, a signed infinity
(`inf true` is `+Inf`), or NaN.  Arithmetic follows IEEE-754 propagation;
finite/finite arithmetic is exact because no verified property depends on
rounding. -/
inductive F
  | fin (q : ℚ)
  | inf (pos : Bool)
  | nan
  deriving DecidableEq

namespace F

/-- IEEE-754 addition on modelled float64 values (Go `+`). -/
def add : F → F → F
  | nan, _ => nan
  | _, nan => nan
  | inf p, inf q => if p = q then inf p else nan
  | inf p, fin _ => inf p
  | fin _, inf p => inf p
  | fin a, fin b => fin (a + b)

/-- IEEE-754 subtraction on modelled float64 values (Go `-`). -/
def sub : F → F → F
  | nan, _ => nan
  | _, nan => nan
  | inf p, inf q => if p = q then nan else inf p
  | inf p, fin _ => inf p
  | fin _, inf p => inf (!p)
  | fin a, fin b => fin (a - b)

/-- IEEE-754 multiplication on modelled float64 values (Go `*`). -/
def mul : F → F → F
  | nan, _ => nan
  | _, nan => nan
  | inf p, inf q => inf (p = q)
  | inf p, fin b => if b = 0 then nan else if 0 < b then inf p else inf (!p)
  | fin a, inf p => if a = 0 then nan else if 0 < a then inf p else inf (!p)
  | fin a, fin b => fin (a * b)

/-- IEEE-754 division on modelled float64 values (Go `/`). -/
def div : F → F → F
  | nan, _ => nan
  | _, nan => nan
  | inf _, inf _ => nan
  | inf p, fin b => if 0 ≤ b then inf p else inf (!p)
  | fin _, inf _ => fin 0
  | fin a, fin b =>
      if b = 0 then (if a = 0 then nan else if 0 < a then inf true else inf false)
      else fin (a / b)

/-- IEEE-754 equality test (Go `==` on float64): NaN compares unequal to
everything, including itself. -/
def beq : F → F → Bool
  | nan, _ => false
  | _, nan => false
  | inf p, inf q => p = q
  | fin a, fin b => a = b
  | _, _ => false

/-- Go `math.IsNaN`. -/
def isNaN : F → Bool
  | nan => true
  | _ => false

/-- Go `math.IsInf(x, 0)`: true for either infinity. -/
def isInf : F → Bool
  | inf _ => true
  | _ => false

/-- A value rejected by the single-operation input validation: NaN or ±Inf. -/
def nonFinite (x : F) : Bool := x.isNaN || x.isInf

end F

instance : BEq F := ⟨F.beq⟩

/-- Rendering of an `F` value as Go's `fmt` verb `%g` prints it on the values
arising in the verified properties: `NaN`, `+Inf`, `-Inf`, and integral finite
values printed without a fractional part. -/
def fmtF : F → String
  | F.nan => "NaN"
  | F.inf true => "+Inf"
  | F.inf false => "-Inf"
  | F.fin q => if q.den = 1 then toString q.num else toString q

/-- JSON body for the binary operations (`internal/calculator/types.go`,
`CalcRequest`). -/
structure CalcRequest where
  a : F
  b : F
  deriving DecidableEq

/-- JSON response for all single-operation endpoints (`types.go`,
`CalcResponse`). -/
structure CalcResponse where
  operation : String
  a : F
  b : F
  result : F
  requestID : String
  deriving DecidableEq

/-- One step of a chained calculation (`types.go`, `ChainStep`). -/
structure ChainStep where
  op : String
  value : F
  deriving DecidableEq

/-- JSON body for `POST /calculator/chain` (`types.go`, `ChainRequest`). -/
structure ChainRequest where
  initial : F
  steps : List ChainStep
  deriving DecidableEq

/-- One executed step as recorded in the chain response (`types.go`,
`ChainResult`). -/
structure ChainResult where
  op : String
  value : F
  result : F
  deriving DecidableEq

/-- JSON response for `POST /calculator/chain` (`types.go`, `ChainResponse`). -/
structure ChainResponse where
  initial : F
  steps : List ChainResult
  result : F
  requestID : String
  deriving DecidableEq

/-- Values that appear as span attributes and log fields.  `timing` stands for
a measured wall-clock duration, whose numeric value is environment-dependent
and not modelled. -/
inductive AttrVal
  | s (v : String)
  | f (v : F)
  | n (v : Int)
  | timing
  deriving DecidableEq

/-- Identity of a span opened by the embedded code.  `render` gives the exact
name string the Go code passes to `tracer.Start`. -/
inductive SpanName
  | httpRequest
  | chain
  | chainStep (i : Nat) (op : String)
  | calcOp (op : String)
  deriving DecidableEq

/-- The literal span name built by the Go code (`fmt.Sprintf` call sites in
`handlers.go` and the `otelhttp` handler name in `middleware.go`). -/
def SpanName.render : SpanName → String
  | httpRequest => "http_request"
  | chain => "calculator.chain"
  | chainStep i op => "calculator.chain.step." ++ toString i ++ "." ++ op
  | calcOp op => "calculator." ++ op

/-- OpenTelemetry span status codes used by the embedded code. -/
inductive StatusCode
  | ok
  | error
  deriving DecidableEq

/-- A response body written by the embedded code.  `errorJson` is the
`map[string]string{"error": ..., "request_id": ...}` literal written by
`RecordError` and `WriteError`. -/
inductive Body
  | errorJson (msg requestID : String)
  | calcJson (resp : CalcResponse)
  | chainJson (resp : ChainResponse)
  | raw (text : String)
  deriving DecidableEq

/-- Field list of the JSON encoding of the failure body: Go's `json.Marshal`
of `map[string]string{"error": msg, "request_id": id}` emits exactly these two
fields (map keys are emitted in sorted order). -/
def errorJsonFields (msg requestID : String) : List (String × String) :=
  [("error", msg), ("request_id", requestID)]

/-- One caller-visible effect performed by a handler or middleware, in program
order: span lifecycle operations, metric samples, log records, and the HTTP
response.  Histogram records carry no value because the recorded duration is
wall-clock time. -/
inductive Event
  | spanStart (name : SpanName) (attrs : List (String × AttrVal))
  | spanEnd (name : SpanName)
  | spanRecordError (name : SpanName) (cause : String)
  | spanSetStatus (name : SpanName) (code : StatusCode) (msg : String)
  | spanAddEvent (name : SpanName) (eventName : String) (attrs : List (String × AttrVal))
  | spanSetAttrs (name : SpanName) (attrs : List (String × AttrVal))
  | counterAdd (instrument : String) (op : String) (value : Int)
  | histogramRecord (instrument : String) (op : String)
  | gaugeRecord (instrument : String) (op : String) (value : F)
  | logInfo (msg : String) (fields : List (String × AttrVal))
  | logError (msg : String) (fields : List (String × AttrVal))
  | setHeader (key value : String)
  | writeResponse (status : Nat) (body : Body)
  deriving DecidableEq

/-- The `(status, body)` of a `writeResponse` event, if the event is one. -/
def responseOf : Event → Option (Nat × Body)
  | Event.writeResponse st b => some (st, b)
  | _ => none

/-- All responses written in a trace, in order. -/
def responsesOf (tr : List Event) : List (Nat × Body) := tr.filterMap responseOf

/-- Predicate: the event is a write of the HTTP response. -/
def isWriteResponse : Event → Bool
  | Event.writeResponse _ _ => true
  | _ => false

/-- Predicate: the event increments the calculator error counter. -/
def isErrorCounterAdd : Event → Bool
  | Event.counterAdd instr _ _ => instr = "calculator.errors.total"
  | _ => false

/-- Predicate: the event is an error-level log record. -/
def isLogErrorEvent : Event → Bool
  | Event.logError _ _ => true
  | _ => false

/-- Predicate: the event opens a chain-step child span. -/
def isStepSpanStart : Event → Bool
  | Event.spanStart (SpanName.chainStep _ _) _ => true
  | _ => false

/-- Predicate: the event is a `step.complete` span event on a step span. -/
def isStepComplete : Event → Bool
  | Event.spanAddEvent (SpanName.chainStep _ _) n _ => n = "step.complete"
  | _ => false

/-- Predicate: the event opens any span. -/
def isSpanStartEvent : Event → Bool
  | Event.spanStart _ _ => true
  | _ => false

/-- Predicate: the event sets the `X-Request-ID` response header. -/
def isXRequestIDHeader : Event → Bool
  | Event.setHeader k _ => k = "X-Request-ID"
  | _ => false

/-- Predicate: the event is the structured completion log of the logging
middleware. -/
def isCompletionLog : Event → Bool
  | Event.logInfo m _ => m = "request completed"
  | _ => false

/-- Predicate: the event writes a success (200) response. -/
def isSuccessResponse : Event → Bool
  | Event.writeResponse st _ => st = 200
  | _ => false

/-- Predicate: the event is the `computation.complete` success span event of a
single-operation handler. -/
def isComputationComplete : Event → Bool
  | Event.spanAddEvent _ n _ => n = "computation.complete"
  | _ => false

/-- Predicate: the event increments the calculator operations counter (a
success metric). -/
def isOpsCounterAdd : Event → Bool
  | Event.counterAdd instr _ _ => instr = "calculator.operations.total"
  | _ => false

/-!
Execution scope and trace-correlated logging
(`internal/observability/request_id.go`, `logger.go`).
-/

/-- OpenTelemetry span context: 128-bit trace id and 64-bit span id, modelled
as naturals.  The zero value is the invalid context returned by
`trace.SpanContextFromContext` when no span is active. -/
structure SpanContext where
  traceID : Nat
  spanID : Nat
  deriving DecidableEq

/-- OTel `SpanContext.IsValid`: both the trace id and the span id are
non-zero. -/
def SpanContext.IsValid (sc : SpanContext) : Bool :=
  sc.traceID != 0 && sc.spanID != 0

/-- The request's execution scope (Go `context.Context`) as the handlers use
it: the request identity stored by `ContextWithRequestID` (absent outside the
middleware), and the active span context. -/
structure Ctx where
  requestID : Option String
  span : SpanContext
  deriving DecidableEq

/-- `RequestIDFromContext` (`request_id.go`): the stored identity, or the
empty string when absent. -/
def RequestIDFromContext (c : Ctx) : String := c.requestID.getD ""

/-- Lowercase hexadecimal digit. -/
def hexDigitChar (n : Nat) : Char :=
  if n < 10 then Char.ofNat (48 + n) else Char.ofNat (87 + n)

/-- Fixed-width lowercase hexadecimal rendering, most significant digit first:
the format of OTel `TraceID.String()` (width 32) and `SpanID.String()`
(width 16). -/
def hexStr : Nat → Nat → String
  | 0, _ => ""
  | w + 1, v => (hexStr w (v / 16)).push (hexDigitChar (v % 16))

/-- A zap logger field.  `ctxAny` is the `zap.Any("context", ctx)` field that
the otelzap bridge turns into the native trace identity of the exported
record. -/
inductive ZapField
  | str (key val : String)
  | ctxAny (key : String) (c : Ctx)
  deriving DecidableEq

/-- The global base logger (`observability.Logger`), modelled by its field
list; the production logger starts with no fields of its own. -/
def baseLoggerFields : List ZapField := []

/-- `LoggerWithTrace` (`logger.go`): returns the base logger unchanged when
the scope holds no valid span, and otherwise the base logger with the
context field (for native trace identity on the export path) plus
human-readable `trace_id` / `span_id` hex fields appended. -/
def LoggerWithTrace (c : Ctx) : List ZapField :=
  let span := c.span
  if !span.IsValid then baseLoggerFields
  else
    baseLoggerFields ++
      [ZapField.ctxAny "context" c,
       ZapField.str "trace_id" (hexStr 32 span.traceID),
       ZapField.str "span_id" (hexStr 16 span.spanID)]

/-!
Unified error recorder and failure-response primitive
(`internal/observability/errors.go`, `internal/handlers/response.go`).
-/

/-- `handlers.WriteError` (`response.go`): write the standardised JSON failure
response with the given status, message and request identity. -/
def WriteError (status : Nat) (msg requestID : String) : List Event :=
  [Event.setHeader "Content-Type" "application/json",
   Event.writeResponse status (Body.errorJson msg requestID)]

/-- `observability.RecordError` (`errors.go`): record the cause and error
status on the span, increment the given error counter tagged with the
operation name, emit one error-level log carrying the operation, the cause
and the scope's request identity, and write the JSON failure response.
`requestID` stands for `RequestIDFromContext(ctx)` at the call site. -/
def RecordError (span : SpanName) (counterName opName msg cause : String)
    (status : Nat) (requestID : String) : List Event :=
  [Event.spanRecordError span cause,
   Event.spanSetStatus span StatusCode.error msg,
   Event.counterAdd counterName opName 1,
   Event.logError msg
     [("operation", AttrVal.s opName), ("error", AttrVal.s cause),
      ("request_id", AttrVal.s requestID)],
   Event.setHeader "Content-Type" "application/json",
   Event.writeResponse status (Body.errorJson msg requestID)]

/-!
Calculator handlers (`internal/calculator/handlers.go`).  Each handler is a
function of the decoded request body (`Except` models the
`json.Decoder.Decode` outcome) and the request identity from the scope.
-/

/-- The compute closure of `Add`: `a + b`, never fails. -/
def addCompute (a b : F) : Except String F := Except.ok (a.add b)

/-- The compute closure of `Subtract`: `a - b`, never fails. -/
def subtractCompute (a b : F) : Except String F := Except.ok (a.sub b)

/-- The compute closure of `Multiply`: `a * b`, never fails. -/
def multiplyCompute (a b : F) : Except String F := Except.ok (a.mul b)

/-- The compute closure of `Divide`: fails on a zero divisor with the
`division by zero: %g / %g` message, otherwise `a / b`. -/
def divideCompute (a b : F) : Except String F :=
  if b == F.fin 0 then
    Except.error ("division by zero: " ++ fmtF a ++ " / " ++ fmtF b)
  else Except.ok (a.div b)

/-- `handleBinaryOp` (`handlers.go`): the shared implementation of the four
single-operation endpoints.  Opens the child span, decodes, validates
finiteness of both operands before any computation, runs the compute closure,
and either records the error or records success metrics, span event, log and
the JSON response. -/
def handleBinaryOp (opName : String) (compute : F → F → Except String F)
    (decoded : Except String CalcRequest) (requestID : String) : List Event :=
  Event.spanStart (SpanName.calcOp opName)
    [("calculator.operation", AttrVal.s opName), ("request.id", AttrVal.s requestID)] ::
  ((match decoded with
    | Except.error e =>
        RecordError (SpanName.calcOp opName) "calculator.errors.total" opName
          "invalid request body" e 400 requestID
    | Except.ok req =>
        if req.a.isNaN || req.a.isInf || req.b.isNaN || req.b.isInf then
          RecordError (SpanName.calcOp opName) "calculator.errors.total" opName
            "invalid numeric input" ("a=" ++ fmtF req.a ++ " b=" ++ fmtF req.b) 400 requestID
        else
          Event.spanSetAttrs (SpanName.calcOp opName)
            [("calculator.operand.a", AttrVal.f req.a),
             ("calculator.operand.b", AttrVal.f req.b)] ::
          (match compute req.a req.b with
           | Except.error err =>
               RecordError (SpanName.calcOp opName) "calculator.errors.total" opName
                 err err 400 requestID
           | Except.ok result =>
               [Event.counterAdd "calculator.operations.total" opName 1,
                Event.histogramRecord "calculator.operation.duration" opName,
                Event.gaugeRecord "calculator.last_result" opName result,
                Event.spanAddEvent (SpanName.calcOp opName) "computation.complete"
                  [("result", AttrVal.f result), ("duration_ms", AttrVal.timing)],
                Event.spanSetAttrs (SpanName.calcOp opName)
                  [("calculator.result", AttrVal.f result)],
                Event.spanSetStatus (SpanName.calcOp opName) StatusCode.ok "",
                Event.logInfo "calculator operation completed"
                  [("operation", AttrVal.s opName), ("a", AttrVal.f req.a),
                   ("b", AttrVal.f req.b), ("result", AttrVal.f result),
                   ("request_id", AttrVal.s requestID), ("duration_ms", AttrVal.timing)],
                Event.setHeader "Content-Type" "application/json",
                Event.writeResponse 200
                  (Body.calcJson (CalcResponse.mk opName req.a req.b result requestID))]))
   ++ [Event.spanEnd (SpanName.calcOp opName)])

/-- `Add` handler (POST /calculator/add). -/
def Add : Except String CalcRequest → String → List Event :=
  handleBinaryOp "add" addCompute

/-- `Subtract` handler (POST /calculator/subtract). -/
def Subtract : Except String CalcRequest → String → List Event :=
  handleBinaryOp "subtract" subtractCompute

/-- `Multiply` handler (POST /calculator/multiply). -/
def Multiply : Except String CalcRequest → String → List Event :=
  handleBinaryOp "multiply" multiplyCompute

/-- `Divide` handler (POST /calculator/divide). -/
def Divide : Except String CalcRequest → String → List Event :=
  handleBinaryOp "divide" divideCompute

/-- The `switch step.Op` body of the chain loop: the outcome of applying one
step's operator and operand to the running value at index `i` — either the
new running value or the error the Go code constructs.  The Go string switch
is an ordered comparison chain. -/
def chainStepOutcome (i : Nat) (running : F) (step : ChainStep) : Except String F :=
  if step.op = "add" then Except.ok (running.add step.value)
  else if step.op = "subtract" then Except.ok (running.sub step.value)
  else if step.op = "multiply" then Except.ok (running.mul step.value)
  else if step.op = "divide" then
    (if step.value == F.fin 0 then
       Except.error ("division by zero at step " ++ toString i)
     else Except.ok (running.div step.value))
  else
    Except.error ("unknown operation \"" ++ step.op ++ "\" at step " ++ toString i)

/-- The value a succeeding step leaves in the accumulator (the same switch,
restricted to the success branches; the default arm is never reached when the
step succeeds). -/
def applyStep (running : F) (step : ChainStep) : F :=
  if step.op = "add" then running.add step.value
  else if step.op = "subtract" then running.sub step.value
  else if step.op = "multiply" then running.mul step.value
  else if step.op = "divide" then running.div step.value
  else running

/-- Whether a step succeeds: a recognised operator, and for `divide` a
non-zero operand.  Failure of a step depends only on the step itself, not on
the running value. -/
def stepOk (step : ChainStep) : Bool :=
  if step.op = "add" then true
  else if step.op = "subtract" then true
  else if step.op = "multiply" then true
  else if step.op = "divide" then !(step.value == F.fin 0)
  else false

/-- The error message a failing step produces at index `i`. -/
def stepErrMsg (i : Nat) (step : ChainStep) : String :=
  if step.op = "divide" then "division by zero at step " ++ toString i
  else "unknown operation \"" ++ step.op ++ "\" at step " ++ toString i

/-- The child span opened for chain step `i` (`tracer.Start` in the loop). -/
def chainStepStart (i : Nat) (running : F) (step : ChainStep) : Event :=
  Event.spanStart (SpanName.chainStep i step.op)
    [("chain.step.index", AttrVal.n i), ("chain.step.operation", AttrVal.s step.op),
     ("chain.step.input", AttrVal.f running), ("chain.step.value", AttrVal.f step.value)]

/-- The events of one succeeding chain step: step span, step metrics,
`step.complete` span event, ok status, span end and the step log. -/
def chainOkEvents (i : Nat) (prev newRunning : F) (step : ChainStep) : List Event :=
  [chainStepStart i prev step,
   Event.counterAdd "calculator.operations.total" step.op 1,
   Event.histogramRecord "calculator.operation.duration" step.op,
   Event.spanAddEvent (SpanName.chainStep i step.op) "step.complete"
     [("input", AttrVal.f prev), ("result", AttrVal.f newRunning)],
   Event.spanSetAttrs (SpanName.chainStep i step.op)
     [("chain.step.result", AttrVal.f newRunning)],
   Event.spanSetStatus (SpanName.chainStep i step.op) StatusCode.ok "",
   Event.spanEnd (SpanName.chainStep i step.op),
   Event.logInfo "chain step completed"
     [("step", AttrVal.n i), ("operation", AttrVal.s step.op),
      ("input", AttrVal.f prev), ("value", AttrVal.f step.value),
      ("result", AttrVal.f newRunning), ("duration_ms", AttrVal.timing)]]

/-- The events of the failing chain step: close the child span with the error,
mark the parent chain span failed, bump the error counter, emit the error log
and write the failure response via `handlers.WriteError`. -/
def chainFailEvents (requestID : String) (i : Nat) (running : F)
    (step : ChainStep) (err : String) : List Event :=
  [chainStepStart i running step,
   Event.spanRecordError (SpanName.chainStep i step.op) err,
   Event.spanSetStatus (SpanName.chainStep i step.op) StatusCode.error err,
   Event.spanEnd (SpanName.chainStep i step.op),
   Event.spanRecordError SpanName.chain err,
   Event.spanSetStatus SpanName.chain StatusCode.error ("failed at step " ++ toString i),
   Event.counterAdd "calculator.errors.total" step.op 1,
   Event.logError "chain step failed"
     [("step", AttrVal.n i), ("operation", AttrVal.s step.op),
      ("error", AttrVal.s err), ("request_id", AttrVal.s requestID)]]
  ++ WriteError 400 err requestID

/-- The `for i, step := range req.Steps` loop of `Chain`: produces the events
of the executed steps and, on success, the final accumulator with the ordered
step results; on the first failure it stops with the failure events already
emitted. -/
def chainLoop (requestID : String) (i : Nat) (running : F) :
    List ChainStep → List Event × Option (F × List ChainResult)
  | [] => ([], some (running, []))
  | step :: rest =>
    match chainStepOutcome i running step with
    | Except.error err => (chainFailEvents requestID i running step err, none)
    | Except.ok newRunning =>
        let tail := chainLoop requestID (i + 1) newRunning rest
        (chainOkEvents i running newRunning step ++ tail.1,
         tail.2.map fun p => (p.1, ChainResult.mk step.op step.value newRunning :: p.2))

/-- The terminal-success events of `Chain`: final gauge sample,
`chain.complete` span event with final value and step count, ok status on the
parent span, completion log, and the JSON success response. -/
def chainTerminal (req : ChainRequest) (running : F) (results : List ChainResult)
    (requestID : String) : List Event :=
  [Event.gaugeRecord "calculator.last_result" "chain" running,
   Event.spanAddEvent SpanName.chain "chain.complete"
     [("final_result", AttrVal.f running), ("total_steps", AttrVal.n req.steps.length)],
   Event.spanSetAttrs SpanName.chain [("chain.result", AttrVal.f running)],
   Event.spanSetStatus SpanName.chain StatusCode.ok "",
   Event.logInfo "chained calculation completed"
     [("initial", AttrVal.f req.initial), ("result", AttrVal.f running),
      ("steps", AttrVal.n req.steps.length), ("request_id", AttrVal.s requestID)],
   Event.setHeader "Content-Type" "application/json",
   Event.writeResponse 200
     (Body.chainJson (ChainResponse.mk req.initial results running requestID))]

/-- `Chain` handler (POST /calculator/chain, `handlers.go`): parent span,
decode, empty-step validation, the step loop, and the terminal success
events; the deferred parent `span.End` closes the trace. -/
def Chain (decoded : Except String ChainRequest) (requestID : String) : List Event :=
  Event.spanStart SpanName.chain [("request.id", AttrVal.s requestID)] ::
  ((match decoded with
    | Except.error e =>
        RecordError SpanName.chain "calculator.errors.total" "chain"
          "invalid request body" e 400 requestID
    | Except.ok req =>
        if req.steps.length == 0 then
          RecordError SpanName.chain "calculator.errors.total" "chain"
            "no steps provided" "steps array is empty" 400 requestID
        else
          Event.spanSetAttrs SpanName.chain
            [("chain.initial", AttrVal.f req.initial),
             ("chain.steps_count", AttrVal.n req.steps.length)] ::
          Event.logInfo "starting chained calculation"
            [("initial", AttrVal.f req.initial),
             ("steps", AttrVal.n req.steps.length),
             ("request_id", AttrVal.s requestID)] ::
          (let lp := chainLoop requestID 0 req.initial req.steps
           lp.1 ++
             match lp.2 with
             | none => []
             | some p => chainTerminal req p.1 p.2 requestID))
   ++ [Event.spanEnd SpanName.chain])

/-!
Middleware stack and router (`internal/observability/middleware.go`,
`internal/server/router.go`).  A handler at the HTTP level is a function of
the execution scope and the inbound request.
-/

/-- An inbound HTTP request: method, path, and the decode outcome of its body
for each body shape a mounted handler may read. -/
structure Request where
  method : String
  path : String
  calcBody : Except String CalcRequest
  chainBody : Except String ChainRequest

/-- An HTTP-level handler: execution scope and request to effect trace. -/
def HttpHandler := Ctx → Request → List Event

/-- The paths excluded from tracing (`untracedPaths` in `middleware.go`). -/
def untracedPaths : List String := ["/metrics", "/health"]

/-- `shouldTraceRequest` (`middleware.go`): trace unless the path is on the
exclusion list. -/
def shouldTraceRequest (path : String) : Bool := !(untracedPaths.contains path)

/-- `RequestIDMiddleware` (`middleware.go`): generate an identity (`genID`
stands for the freshly generated UUID), store it in the scope, set the
`X-Request-ID` response header, and call the next handler. -/
def RequestIDMiddleware (genID : String) (next : HttpHandler) : HttpHandler :=
  fun c req =>
    Event.setHeader "X-Request-ID" genID ::
    next { c with requestID := some genID } req

/-- `TracingMiddleware` (`middleware.go`): the `otelhttp` handler with the
`shouldTraceRequest` filter — wraps the request in a root `http_request` span
unless the path is excluded.  The span's randomly generated identity is not
modelled; only its lifecycle events are. -/
def TracingMiddleware (next : HttpHandler) : HttpHandler :=
  fun c req =>
    if shouldTraceRequest req.path then
      Event.spanStart SpanName.httpRequest
        [("http.method", AttrVal.s req.method), ("http.path", AttrVal.s req.path)] ::
      next c req ++ [Event.spanEnd SpanName.httpRequest]
    else next c req

/-- `LoggingMiddleware` (`middleware.go`): run the next handler, then emit the
structured completion log with method, path, the scope's request identity and
the measured duration. -/
def LoggingMiddleware (next : HttpHandler) : HttpHandler :=
  fun c req =>
    next c req ++
      [Event.logInfo "request completed"
        [("method", AttrVal.s req.method), ("path", AttrVal.s req.path),
         ("request_id", AttrVal.s (RequestIDFromContext c)),
         ("duration", AttrVal.timing)]]

/-- Modelled from the spec: the liveness-check handler `handlers.Health`
(its source file is not part of the provided sources; the spec and the router
tests describe it as writing a plain `ok` body). -/
def Health : HttpHandler := fun _ _ => [Event.writeResponse 200 (Body.raw "ok")]

/-- Modelled from the spec: `observability.PrometheusHandler` wraps the
external Prometheus library's scrape handler, which writes the metrics
exposition body. -/
def PrometheusHandler : HttpHandler :=
  fun _ _ => [Event.writeResponse 200 (Body.raw "prometheus metrics")]

/-- chi's fallback for unmatched paths. -/
def NotFoundHandler : HttpHandler :=
  fun _ _ => [Event.writeResponse 404 (Body.raw "404 page not found")]

/-- `calculator.RegisterRoutes` (`routes.go`): the five endpoints mounted
under `/calculator`, each reading its body shape and the scope's request
identity. -/
def calculatorRoutes : List (String × HttpHandler) :=
  [("/calculator/add", fun c r => Add r.calcBody (RequestIDFromContext c)),
   ("/calculator/subtract", fun c r => Subtract r.calcBody (RequestIDFromContext c)),
   ("/calculator/multiply", fun c r => Multiply r.calcBody (RequestIDFromContext c)),
   ("/calculator/divide", fun c r => Divide r.calcBody (RequestIDFromContext c)),
   ("/calculator/chain", fun c r => Chain r.chainBody (RequestIDFromContext c))]

/-- The middleware stack of the router's route group, outermost first:
request identity, tracing, logging (`r.Use` order in `router.go`). -/
def middlewareChain (genID : String) (h : HttpHandler) : HttpHandler :=
  RequestIDMiddleware genID (TracingMiddleware (LoggingMiddleware h))

/-- The scope of a request before any middleware has run: no request
identity, no valid span. -/
def emptyCtx : Ctx := { requestID := none, span := { traceID := 0, spanID := 0 } }

/-- `NewRouter` (`router.go`): `/metrics` and `/health` are registered on the
top-level mux, before and outside the route group; only the routes registered
inside `r.Group` — the calculator endpoints — pass through the three
middlewares.  `genID` stands for the UUID the identity middleware would
generate for this request. -/
def NewRouter (genID : String) : Request → List Event :=
  fun req =>
    if req.path = "/metrics" then PrometheusHandler emptyCtx req
    else if req.path = "/health" then Health emptyCtx req
    else
      match calculatorRoutes.lookup req.path with
      | some h => middlewareChain genID h emptyCtx req
      | none => NotFoundHandler emptyCtx req

/-- Specification-side recorder of step results, written from the claim's
words: one `ChainResult` per step, in order, each holding the accumulator
after applying that step's operator and operand to the running value. -/
def specStepResults (running : F) : List ChainStep → List ChainResult
  | [] => []
  | step :: rest =>
      ChainResult.mk step.op step.value (applyStep running step) ::
      specStepResults (applyStep running step) rest

/-- The events of a run of consecutive succeeding steps starting at index `i`
with the given running value (used to characterise `chainLoop`). -/
def okStepsEvents (i : Nat) (running : F) : List ChainStep → List Event
  | [] => []
  | step :: rest =>
      chainOkEvents i running (applyStep running step) step ++
      okStepsEvents (i + 1) (applyStep running step) rest

/-!
Characterisation lemmas for the chain loop.
-/

theorem stepOutcome_of_ok (i : Nat) (r : F) (step : ChainStep) (h : stepOk step = true) :
    chainStepOutcome i r step = Except.ok (applyStep r step) := by
  unfold stepOk at h
  unfold chainStepOutcome applyStep
  split_ifs at h ⊢ <;> simp_all

theorem stepOutcome_of_fail (i : Nat) (r : F) (step : ChainStep) (h : stepOk step = false) :
    chainStepOutcome i r step = Except.error (stepErrMsg i step) := by
  unfold stepOk at h
  unfold chainStepOutcome stepErrMsg
  split_ifs at h ⊢ <;> simp_all

theorem chainLoop_cons_ok (requestID : String) (i : Nat) (running : F)
    (step : ChainStep) (rest : List ChainStep) (newRunning : F)
    (h : chainStepOutcome i running step = Except.ok newRunning) :
    chainLoop requestID i running (step :: rest) =
      (chainOkEvents i running newRunning step ++ (chainLoop requestID (i + 1) newRunning rest).1,
       (chainLoop requestID (i + 1) newRunning rest).2.map
         fun p => (p.1, ChainResult.mk step.op step.value newRunning :: p.2)) := by
  simp only [chainLoop, h]

theorem chainLoop_cons_fail (requestID : String) (i : Nat) (running : F)
    (step : ChainStep) (rest : List ChainStep) (err : String)
    (h : chainStepOutcome i running step = Except.error err) :
    chainLoop requestID i running (step :: rest) =
      (chainFailEvents requestID i running step err, none) := by
  simp only [chainLoop, h]

theorem chainLoop_all_ok (requestID : String) :
    ∀ (steps : List ChainStep) (i : Nat) (running : F),
      (∀ s ∈ steps, stepOk s = true) →
      chainLoop requestID i running steps =
        (okStepsEvents i running steps,
         some (steps.foldl applyStep running, specStepResults running steps)) := by
  intro steps
  induction steps with
  | nil => intro i running _; simp [chainLoop, okStepsEvents, specStepResults]
  | cons step rest ih =>
      intro i running h
      have hstep : stepOk step = true := h step (by simp)
      have hrest : ∀ s ∈ rest, stepOk s = true := fun s hs => h s (by simp [hs])
      rw [chainLoop_cons_ok requestID i running step rest (applyStep running step)
            (stepOutcome_of_ok i running step hstep)]
      rw [ih (i + 1) (applyStep running step) hrest]
      simp [okStepsEvents, specStepResults]

theorem chainLoop_first_fail (requestID : String) :
    ∀ (pre : List ChainStep) (bad : ChainStep) (rest : List ChainStep) (i : Nat) (running : F),
      (∀ s ∈ pre, stepOk s = true) → stepOk bad = false →
      chainLoop requestID i running (pre ++ bad :: rest) =
        (okStepsEvents i running pre ++
           chainFailEvents requestID (i + pre.length) (pre.foldl applyStep running) bad
             (stepErrMsg (i + pre.length) bad),
         none) := by
  intro pre
  induction pre with
  | nil =>
      intro bad rest i running _ hbad
      rw [List.nil_append,
          chainLoop_cons_fail requestID i running bad rest _
            (stepOutcome_of_fail i running bad hbad)]
      simp [okStepsEvents]
  | cons step pre ih =>
      intro bad rest i running hpre hbad
      have hstep : stepOk step = true := hpre step (by simp)
      have hpre' : ∀ s ∈ pre, stepOk s = true := fun s hs => hpre s (by simp [hs])
      rw [List.cons_append,
          chainLoop_cons_ok requestID i running step (pre ++ bad :: rest)
            (applyStep running step) (stepOutcome_of_ok i running step hstep),
          ih bad rest (i + 1) (applyStep running step) hpre' hbad]
      have harith : i + 1 + pre.length = i + (pre.length + 1) := by omega
      simp [okStepsEvents, List.append_assoc, harith]

theorem okStepsEvents_cons (i : Nat) (running : F) (step : ChainStep)
    (rest : List ChainStep) :
    okStepsEvents i running (step :: rest) =
      chainOkEvents i running (applyStep running step) step ++
      okStepsEvents (i + 1) (applyStep running step) rest := rfl

theorem responsesOf_append (a b : List Event) :
    responsesOf (a ++ b) = responsesOf a ++ responsesOf b := by
  simp [responsesOf]

theorem okStepsEvents_counts :
    ∀ (steps : List ChainStep) (i : Nat) (running : F),
      ((okStepsEvents i running steps).countP isWriteResponse = 0 ∧
       (okStepsEvents i running steps).countP isErrorCounterAdd = 0 ∧
       (okStepsEvents i running steps).countP isLogErrorEvent = 0) ∧
      (okStepsEvents i running steps).countP isStepSpanStart = steps.length ∧
      (okStepsEvents i running steps).countP isStepComplete = steps.length := by
  intro steps
  induction steps with
  | nil => intro i running; simp [okStepsEvents]
  | cons step rest ih =>
      intro i running
      obtain ⟨⟨h1, h2, h3⟩, h4, h5⟩ := ih (i + 1) (applyStep running step)
      rw [okStepsEvents_cons]
      simp only [List.countP_append, h1, h2, h3, h4, h5, List.length_cons]
      refine ⟨⟨?_, ?_, ?_⟩, ?_, ?_⟩ <;>
        (simp [chainOkEvents, chainStepStart, List.countP_cons, isWriteResponse,
           isErrorCounterAdd, isLogErrorEvent, isStepSpanStart, isStepComplete]
         try omega)

theorem okStepsEvents_responses :
    ∀ (steps : List ChainStep) (i : Nat) (running : F),
      responsesOf (okStepsEvents i running steps) = [] := by
  intro steps
  induction steps with
  | nil => intro i running; simp [okStepsEvents, responsesOf]
  | cons step rest ih =>
      intro i running
      rw [okStepsEvents_cons, responsesOf_append, ih (i + 1) (applyStep running step)]
      simp [chainOkEvents, chainStepStart, responsesOf, responseOf]

theorem specStepResults_length :
    ∀ (steps : List ChainStep) (running : F),
      (specStepResults running steps).length = steps.length := by
  intro steps
  induction steps with
  | nil => intro r; rfl
  | cons s rest ih => intro r; simp [specStepResults, ih]

/-- C1: a chain request with a non-empty step list in which every step
succeeds produces exactly one response: status 200, carrying one
`ChainResult` per step in order (each holding the accumulator after applying
that step to the running value, per `specStepResults`), and a final result
equal to the left fold of the steps over the initial value. -/
theorem chain_success_spec (req : ChainRequest) (requestID : String)
    (hne : req.steps ≠ [])
    (hok : ∀ s ∈ req.steps, stepOk s = true) :
    responsesOf (Chain (Except.ok req) requestID) =
      [(200, Body.chainJson
        (ChainResponse.mk req.initial (specStepResults req.initial req.steps)
          (req.steps.foldl applyStep req.initial) requestID))] ∧
    (specStepResults req.initial req.steps).length = req.steps.length := by
  have hlen : (req.steps.length == 0) = false := by
    simp [List.length_eq_zero, hne]
  have hresp := okStepsEvents_responses req.steps 0 req.initial
  simp only [responsesOf] at hresp
  refine ⟨?_, specStepResults_length req.steps req.initial⟩
  simp only [Chain, hlen, Bool.false_eq_true, if_false,
    chainLoop_all_ok requestID req.steps 0 req.initial hok]
  simp [responsesOf, responseOf, List.filterMap_append, hresp, chainTerminal]

/-- Witness for C1 at the spec's example: initial value 10 with steps
[add 5, multiply 2, subtract 4] yields the step results 15, 30, 26 in order
and the final result 26. -/
theorem chain_success_spec_witness :
    (⟨F.fin 10, [⟨"add", F.fin 5⟩, ⟨"multiply", F.fin 2⟩, ⟨"subtract", F.fin 4⟩]⟩ :
        ChainRequest).steps ≠ [] ∧
    responsesOf (Chain (Except.ok
        ⟨F.fin 10, [⟨"add", F.fin 5⟩, ⟨"multiply", F.fin 2⟩, ⟨"subtract", F.fin 4⟩]⟩)
        "req-1") =
      [(200, Body.chainJson
        ⟨F.fin 10,
         [⟨"add", F.fin 5, F.fin 15⟩, ⟨"multiply", F.fin 2, F.fin 30⟩,
          ⟨"subtract", F.fin 4, F.fin 26⟩],
         F.fin 26, "req-1"⟩)] := by
  refine ⟨by simp, ?_⟩
  have h := (chain_success_spec
    ⟨F.fin 10, [⟨"add", F.fin 5⟩, ⟨"multiply", F.fin 2⟩, ⟨"subtract", F.fin 4⟩]⟩
    "req-1" (by simp) (by decide)).1
  refine h.trans ?_
  simp [specStepResults, applyStep, F.add, F.sub, F.mul, List.foldl]
  norm_num

/-- C7: a chain request with an empty step list is rejected as malformed
input through the unified error recorder — one 400 response with the
`no steps provided` message — and no business-step child span is opened. -/
theorem chain_empty_steps_spec (initial : F) (requestID : String) :
    Chain (Except.ok ⟨initial, []⟩) requestID =
      Event.spanStart SpanName.chain [("request.id", AttrVal.s requestID)] ::
      (RecordError SpanName.chain "calculator.errors.total" "chain" "no steps provided"
        "steps array is empty" 400 requestID ++ [Event.spanEnd SpanName.chain]) ∧
    responsesOf (Chain (Except.ok ⟨initial, []⟩) requestID) =
      [(400, Body.errorJson "no steps provided" requestID)] ∧
    (Chain (Except.ok ⟨initial, []⟩) requestID).countP isStepSpanStart = 0 := by
  refine ⟨rfl, rfl, rfl⟩

/-- C9: the divide endpoint on operands 10 and 0 records the failure (error
span status, error counter, error log) and writes one 400 response whose
message is exactly `division by zero: 10 / 0`; no success metric, success
span event or success response is produced. -/
theorem divide_by_zero_spec (requestID : String) :
    Divide (Except.ok ⟨F.fin 10, F.fin 0⟩) requestID =
      Event.spanStart (SpanName.calcOp "divide")
        [("calculator.operation", AttrVal.s "divide"),
         ("request.id", AttrVal.s requestID)] ::
      (Event.spanSetAttrs (SpanName.calcOp "divide")
        [("calculator.operand.a", AttrVal.f (F.fin 10)),
         ("calculator.operand.b", AttrVal.f (F.fin 0))] ::
       RecordError (SpanName.calcOp "divide") "calculator.errors.total" "divide"
         "division by zero: 10 / 0" "division by zero: 10 / 0" 400 requestID
       ++ [Event.spanEnd (SpanName.calcOp "divide")]) ∧
    responsesOf (Divide (Except.ok ⟨F.fin 10, F.fin 0⟩) requestID) =
      [(400, Body.errorJson "division by zero: 10 / 0" requestID)] ∧
    (Divide (Except.ok ⟨F.fin 10, F.fin 0⟩) requestID).countP isSuccessResponse = 0 ∧
    (Divide (Except.ok ⟨F.fin 10, F.fin 0⟩) requestID).countP isComputationComplete = 0 ∧
    (Divide (Except.ok ⟨F.fin 10, F.fin 0⟩) requestID).countP isOpsCounterAdd = 0 := by
  refine ⟨rfl, rfl, rfl, rfl, rfl⟩

/-- C2: when the first failing step of a chain request sits at index
`pre.length` (all earlier steps succeed), the handler closes the failing
child span with an error status, also marks the parent chain span failed,
increments the error counter exactly once, emits exactly one error log,
writes exactly one 400 failure response, and opens no span for — and records
no completion of — any later step: exactly `pre.length + 1` step spans are
opened and `pre.length` steps complete. -/
theorem chain_step_failure_spec (initial : F) (requestID : String)
    (pre : List ChainStep) (bad : ChainStep) (rest : List ChainStep)
    (hpre : ∀ s ∈ pre, stepOk s = true) (hbad : stepOk bad = false) :
    responsesOf (Chain (Except.ok ⟨initial, pre ++ bad :: rest⟩) requestID) =
      [(400, Body.errorJson (stepErrMsg pre.length bad) requestID)] ∧
    (Chain (Except.ok ⟨initial, pre ++ bad :: rest⟩) requestID).countP isErrorCounterAdd = 1 ∧
    (Chain (Except.ok ⟨initial, pre ++ bad :: rest⟩) requestID).countP isLogErrorEvent = 1 ∧
    Event.spanSetStatus (SpanName.chainStep pre.length bad.op) StatusCode.error
        (stepErrMsg pre.length bad) ∈
      Chain (Except.ok ⟨initial, pre ++ bad :: rest⟩) requestID ∧
    Event.spanEnd (SpanName.chainStep pre.length bad.op) ∈
      Chain (Except.ok ⟨initial, pre ++ bad :: rest⟩) requestID ∧
    Event.spanSetStatus SpanName.chain StatusCode.error
        ("failed at step " ++ toString pre.length) ∈
      Chain (Except.ok ⟨initial, pre ++ bad :: rest⟩) requestID ∧
    (Chain (Except.ok ⟨initial, pre ++ bad :: rest⟩) requestID).countP isStepSpanStart =
      pre.length + 1 ∧
    (Chain (Except.ok ⟨initial, pre ++ bad :: rest⟩) requestID).countP isStepComplete =
      pre.length := by
  have hlen : ((pre ++ bad :: rest).length == 0) = false := by
    simp [List.length_append]
  have hshape : Chain (Except.ok ⟨initial, pre ++ bad :: rest⟩) requestID =
      Event.spanStart SpanName.chain [("request.id", AttrVal.s requestID)] ::
      ((Event.spanSetAttrs SpanName.chain
          [("chain.initial", AttrVal.f initial),
           ("chain.steps_count", AttrVal.n (pre ++ bad :: rest).length)] ::
        Event.logInfo "starting chained calculation"
          [("initial", AttrVal.f initial),
           ("steps", AttrVal.n (pre ++ bad :: rest).length),
           ("request_id", AttrVal.s requestID)] ::
        (okStepsEvents 0 initial pre ++
         chainFailEvents requestID pre.length (pre.foldl applyStep initial) bad
           (stepErrMsg pre.length bad)))
       ++ [Event.spanEnd SpanName.chain]) := by
    simp only [Chain, hlen, Bool.false_eq_true, if_false,
      chainLoop_first_fail requestID pre bad rest 0 initial hpre hbad]
    simp
  obtain ⟨⟨c1, c2, c3⟩, c4, c5⟩ := okStepsEvents_counts pre 0 initial
  have hresp := okStepsEvents_responses pre 0 initial
  simp only [responsesOf] at hresp
  rw [hshape]
  refine ⟨?_, ?_, ?_, ?_, ?_, ?_, ?_, ?_⟩
  · simp [responsesOf, responseOf, List.filterMap_append, hresp, chainFailEvents,
      chainStepStart, WriteError]
  · simp [List.countP_cons, List.countP_append, c2, chainFailEvents, chainStepStart,
      WriteError, isErrorCounterAdd]
  · simp [List.countP_cons, List.countP_append, c3, chainFailEvents, chainStepStart,
      WriteError, isLogErrorEvent]
  · simp [chainFailEvents, chainStepStart, WriteError, List.mem_append, List.mem_cons]
  · simp [chainFailEvents, chainStepStart, WriteError, List.mem_append, List.mem_cons]
  · simp [chainFailEvents, chainStepStart, WriteError, List.mem_append, List.mem_cons]
  · simp [List.countP_cons, List.countP_append, c4, chainFailEvents, chainStepStart,
      WriteError, isStepSpanStart]
  · simp [List.countP_cons, List.countP_append, c5, chainFailEvents, chainStepStart,
      WriteError, isStepComplete]

/-- Witness for C2 at the spec's example: an unrecognised operator `pow` at
step 0 yields one 400 response whose message names the unknown operation and
identifies step 0, and no step completes. -/
theorem chain_step_failure_spec_witness :
    (∀ s ∈ ([] : List ChainStep), stepOk s = true) ∧ stepOk ⟨"pow", F.fin 2⟩ = false ∧
    (responsesOf (Chain (Except.ok ⟨F.fin 10, [] ++ ⟨"pow", F.fin 2⟩ :: []⟩) "req-2") =
      [(400, Body.errorJson (stepErrMsg (List.length ([] : List ChainStep)) ⟨"pow", F.fin 2⟩)
        "req-2")] ∧
     (Chain (Except.ok ⟨F.fin 10, [] ++ ⟨"pow", F.fin 2⟩ :: []⟩) "req-2").countP
        isErrorCounterAdd = 1 ∧
     (Chain (Except.ok ⟨F.fin 10, [] ++ ⟨"pow", F.fin 2⟩ :: []⟩) "req-2").countP
        isLogErrorEvent = 1 ∧
     Event.spanSetStatus (SpanName.chainStep (List.length ([] : List ChainStep)) "pow")
        StatusCode.error
        (stepErrMsg (List.length ([] : List ChainStep)) ⟨"pow", F.fin 2⟩) ∈
      Chain (Except.ok ⟨F.fin 10, [] ++ ⟨"pow", F.fin 2⟩ :: []⟩) "req-2" ∧
     Event.spanEnd (SpanName.chainStep (List.length ([] : List ChainStep)) "pow") ∈
      Chain (Except.ok ⟨F.fin 10, [] ++ ⟨"pow", F.fin 2⟩ :: []⟩) "req-2" ∧
     Event.spanSetStatus SpanName.chain StatusCode.error
        ("failed at step " ++ toString (List.length ([] : List ChainStep))) ∈
      Chain (Except.ok ⟨F.fin 10, [] ++ ⟨"pow", F.fin 2⟩ :: []⟩) "req-2" ∧
     (Chain (Except.ok ⟨F.fin 10, [] ++ ⟨"pow", F.fin 2⟩ :: []⟩) "req-2").countP
        isStepSpanStart = List.length ([] : List ChainStep) + 1 ∧
     (Chain (Except.ok ⟨F.fin 10, [] ++ ⟨"pow", F.fin 2⟩ :: []⟩) "req-2").countP
        isStepComplete = List.length ([] : List ChainStep)) :=
  ⟨by simp, by decide,
   chain_step_failure_spec (F.fin 10) "req-2" [] ⟨"pow", F.fin 2⟩ []
     (by simp) (by decide)⟩

theorem handleBinaryOp_nonfinite (opName : String) (compute : F → F → Except String F)
    (a b : F) (requestID : String)
    (h : (a.isNaN || a.isInf || b.isNaN || b.isInf) = true) :
    handleBinaryOp opName compute (Except.ok ⟨a, b⟩) requestID =
      Event.spanStart (SpanName.calcOp opName)
        [("calculator.operation", AttrVal.s opName),
         ("request.id", AttrVal.s requestID)] ::
      (RecordError (SpanName.calcOp opName) "calculator.errors.total" opName
        "invalid numeric input" ("a=" ++ fmtF a ++ " b=" ++ fmtF b) 400 requestID
       ++ [Event.spanEnd (SpanName.calcOp opName)]) := by
  simp only [handleBinaryOp, h, if_true]

/-- C8: a single-operation request whose decoded body has a non-finite
operand is rejected as malformed input — the trace is the child span around
the unified error recorder with the `invalid numeric input` message, with one
400 response — and the trace does not depend on the compute closure: the
computation is never attempted. -/
theorem binaryOp_nonfinite_spec (opName : String)
    (compute compute' : F → F → Except String F) (a b : F) (requestID : String)
    (h : (a.isNaN || a.isInf || b.isNaN || b.isInf) = true) :
    handleBinaryOp opName compute (Except.ok ⟨a, b⟩) requestID =
      Event.spanStart (SpanName.calcOp opName)
        [("calculator.operation", AttrVal.s opName),
         ("request.id", AttrVal.s requestID)] ::
      (RecordError (SpanName.calcOp opName) "calculator.errors.total" opName
        "invalid numeric input" ("a=" ++ fmtF a ++ " b=" ++ fmtF b) 400 requestID
       ++ [Event.spanEnd (SpanName.calcOp opName)]) ∧
    handleBinaryOp opName compute (Except.ok ⟨a, b⟩) requestID =
      handleBinaryOp opName compute' (Except.ok ⟨a, b⟩) requestID ∧
    responsesOf (handleBinaryOp opName compute (Except.ok ⟨a, b⟩) requestID) =
      [(400, Body.errorJson "invalid numeric input" requestID)] := by
  have h1 := handleBinaryOp_nonfinite opName compute a b requestID h
  have h2 := handleBinaryOp_nonfinite opName compute' a b requestID h
  refine ⟨h1, h1.trans h2.symm, ?_⟩
  rw [h1]
  simp [responsesOf, responseOf, RecordError]

/-- Witness for C8: a NaN first operand on the add endpoint is rejected with
the 400 `invalid numeric input` response, for any compute closure. -/
theorem binaryOp_nonfinite_spec_witness :
    ((F.nan).isNaN || (F.nan).isInf || (F.fin 3).isNaN || (F.fin 3).isInf) = true ∧
    responsesOf (handleBinaryOp "add" addCompute (Except.ok ⟨F.nan, F.fin 3⟩) "req-3") =
      [(400, Body.errorJson "invalid numeric input" "req-3")] :=
  ⟨by decide,
   (binaryOp_nonfinite_spec "add" addCompute subtractCompute F.nan (F.fin 3) "req-3"
     (by decide)).2.2⟩

theorem chain_success_responses (req : ChainRequest) (requestID : String)
    (hne : req.steps ≠ [])
    (hok : ∀ s ∈ req.steps, stepOk s = true) :
    responsesOf (Chain (Except.ok req) requestID) =
      [(200, Body.chainJson
        (ChainResponse.mk req.initial (specStepResults req.initial req.steps)
          (req.steps.foldl applyStep req.initial) requestID))] := by
  have hlen : (req.steps.length == 0) = false := by
    simp [List.length_eq_zero, hne]
  have hresp := okStepsEvents_responses req.steps 0 req.initial
  simp only [responsesOf] at hresp
  simp only [Chain, hlen, Bool.false_eq_true, if_false,
    chainLoop_all_ok requestID req.steps 0 req.initial hok]
  simp [responsesOf, responseOf, List.filterMap_append, hresp, chainTerminal]

/-- C10: the chain handler performs no finiteness validation.  Even when the
initial value or some step operand is non-finite, a chain whose steps all
succeed is answered with the single 200 response computed from the (possibly
non-finite) fold — whereas every single-operation endpoint rejects non-finite
operands with the 400 `invalid numeric input` response. -/
theorem chain_no_finiteness_validation_spec (req : ChainRequest) (requestID : String)
    (hne : req.steps ≠ [])
    (hok : ∀ s ∈ req.steps, stepOk s = true)
    (hnf : req.initial.nonFinite = true ∨ ∃ s ∈ req.steps, s.value.nonFinite = true) :
    responsesOf (Chain (Except.ok req) requestID) =
      [(200, Body.chainJson
        (ChainResponse.mk req.initial (specStepResults req.initial req.steps)
          (req.steps.foldl applyStep req.initial) requestID))] ∧
    (∀ (opName : String) (compute : F → F → Except String F) (a b : F),
      (a.nonFinite || b.nonFinite) = true →
      responsesOf (handleBinaryOp opName compute (Except.ok ⟨a, b⟩) requestID) =
        [(400, Body.errorJson "invalid numeric input" requestID)]) := by
  refine ⟨chain_success_responses req requestID hne hok, ?_⟩
  intro opName compute a b hab
  have hor : (a.isNaN || a.isInf || b.isNaN || b.isInf) = true := by
    simp only [F.nonFinite] at hab
    simp only [Bool.or_eq_true] at hab ⊢
    tauto
  rw [handleBinaryOp_nonfinite opName compute a b requestID hor]
  simp [responsesOf, responseOf, RecordError]

/-- Witness for C10: a chain starting from NaN with one `add 5` step is not
rejected; it succeeds with the NaN result, while the add endpoint rejects the
same NaN operand. -/
theorem chain_no_finiteness_validation_spec_witness :
    (⟨F.nan, [⟨"add", F.fin 5⟩]⟩ : ChainRequest).steps ≠ [] ∧
    ((⟨F.nan, [⟨"add", F.fin 5⟩]⟩ : ChainRequest).initial.nonFinite = true) ∧
    responsesOf (Chain (Except.ok ⟨F.nan, [⟨"add", F.fin 5⟩]⟩) "req-4") =
      [(200, Body.chainJson ⟨F.nan, [⟨"add", F.fin 5, F.nan⟩], F.nan, "req-4"⟩)] ∧
    responsesOf (handleBinaryOp "add" addCompute (Except.ok ⟨F.nan, F.fin 5⟩) "req-4") =
      [(400, Body.errorJson "invalid numeric input" "req-4")] := by
  have h := chain_no_finiteness_validation_spec ⟨F.nan, [⟨"add", F.fin 5⟩]⟩ "req-4"
    (by simp) (by decide) (Or.inl (by decide))
  refine ⟨by simp, by decide, ?_, h.2 "add" addCompute F.nan (F.fin 5) (by decide)⟩
  refine h.1.trans ?_
  simp [specStepResults, applyStep, F.add, List.foldl]

/-- C3: the unified error recorder performs exactly, and in this order: mark
the span's status as error with the message (recording the cause), increment
the given error counter tagged with the operation name, emit one error-level
log carrying the operation name, the cause and the scope's request identity,
and write one response with the given status and a JSON body holding exactly
the error message and the request identity. -/
theorem recordError_effects_spec (span : SpanName)
    (counterName opName msg cause : String) (status : Nat) (requestID : String) :
    RecordError span counterName opName msg cause status requestID =
      [Event.spanRecordError span cause, Event.spanSetStatus span StatusCode.error msg] ++
      [Event.counterAdd counterName opName 1] ++
      [Event.logError msg
        [("operation", AttrVal.s opName), ("error", AttrVal.s cause),
         ("request_id", AttrVal.s requestID)]] ++
      [Event.setHeader "Content-Type" "application/json",
       Event.writeResponse status (Body.errorJson msg requestID)] ∧
    errorJsonFields msg requestID = [("error", msg), ("request_id", requestID)] ∧
    responsesOf (RecordError span counterName opName msg cause status requestID) =
      [(status, Body.errorJson msg requestID)] :=
  ⟨rfl, rfl, rfl⟩

/-- C5: the trace-correlated log factory is total: with no valid span in
scope it returns the base logger unchanged, and with a valid span it returns
the base logger extended with the scope (carrying the native trace identity
for the export path) and the human-readable `trace_id` / `span_id` hex
fields. -/
theorem loggerWithTrace_spec (c : Ctx) :
    (c.span.IsValid = false → LoggerWithTrace c = baseLoggerFields) ∧
    (c.span.IsValid = true → LoggerWithTrace c =
      baseLoggerFields ++
        [ZapField.ctxAny "context" c,
         ZapField.str "trace_id" (hexStr 32 c.span.traceID),
         ZapField.str "span_id" (hexStr 16 c.span.spanID)]) := by
  constructor <;> intro h <;> simp [LoggerWithTrace, h]

/-- Witness for C5: a scope with no span keeps the base logger; a scope with
span identity (1, 2) gets the context field and the hex identity fields. -/
theorem loggerWithTrace_spec_witness :
    (Ctx.mk none ⟨0, 0⟩).span.IsValid = false ∧
    LoggerWithTrace ⟨none, ⟨0, 0⟩⟩ = baseLoggerFields ∧
    (Ctx.mk (some "req-6") ⟨1, 2⟩).span.IsValid = true ∧
    LoggerWithTrace ⟨some "req-6", ⟨1, 2⟩⟩ =
      baseLoggerFields ++
        [ZapField.ctxAny "context" ⟨some "req-6", ⟨1, 2⟩⟩,
         ZapField.str "trace_id" (hexStr 32 1),
         ZapField.str "span_id" (hexStr 16 2)] :=
  ⟨by decide, (loggerWithTrace_spec ⟨none, ⟨0, 0⟩⟩).1 (by decide), by decide,
   (loggerWithTrace_spec ⟨some "req-6", ⟨1, 2⟩⟩).2 (by decide)⟩

theorem chainLoop_error_responses (requestID : String) :
    ∀ (steps : List ChainStep) (i : Nat) (running : F) (st : Nat) (m rid : String),
      Event.writeResponse st (Body.errorJson m rid) ∈ (chainLoop requestID i running steps).1 →
      st = 400 ∧ rid = requestID := by
  intro steps
  induction steps with
  | nil => intro i running st m rid h; simp [chainLoop] at h
  | cons step rest ih =>
      intro i running st m rid h
      cases hout : chainStepOutcome i running step with
      | error err =>
          rw [chainLoop_cons_fail requestID i running step rest err hout] at h
          simp [chainFailEvents, chainStepStart, WriteError, List.mem_cons,
            List.mem_append] at h
          exact ⟨h.1, h.2.2⟩
      | ok newR =>
          rw [chainLoop_cons_ok requestID i running step rest newR hout] at h
          simp [chainOkEvents, chainStepStart, List.mem_cons, List.mem_append] at h
          exact ih (i + 1) newR st m rid h

/-- C4: every failure response any handler writes — through the unified error
recorder or through the narrower `WriteError` primitive — carries the
client-error status 400 and the scope's request identity, and its JSON body
encodes to exactly the two fields `error` and `request_id`. -/
theorem error_response_shape_spec (requestID : String) :
    (∀ (decoded : Except String ChainRequest) (st : Nat) (m rid : String),
      Event.writeResponse st (Body.errorJson m rid) ∈ Chain decoded requestID →
      st = 400 ∧ rid = requestID) ∧
    (∀ (opName : String) (compute : F → F → Except String F)
       (decoded : Except String CalcRequest) (st : Nat) (m rid : String),
      Event.writeResponse st (Body.errorJson m rid) ∈
        handleBinaryOp opName compute decoded requestID →
      st = 400 ∧ rid = requestID) ∧
    (∀ m rid : String, (errorJsonFields m rid).length = 2 ∧
      errorJsonFields m rid = [("error", m), ("request_id", rid)]) := by
  refine ⟨?_, ?_, fun m rid => ⟨rfl, rfl⟩⟩
  · intro decoded st m rid h
    match decoded with
    | Except.error e =>
        simp [Chain, RecordError, List.mem_cons, List.mem_append] at h
        exact ⟨h.1, h.2.2⟩
    | Except.ok req =>
        by_cases hemp : req.steps.length = 0
        · simp [Chain, hemp, RecordError, List.mem_cons, List.mem_append] at h
          exact ⟨h.1, h.2.2⟩
        · have hlen : (req.steps.length == 0) = false := by simp [hemp]
          rcases hcl : chainLoop requestID 0 req.initial req.steps with ⟨evs, out⟩
          simp only [Chain, hlen, Bool.false_eq_true, if_false, hcl] at h
          cases out with
          | none =>
              simp [List.mem_cons, List.mem_append] at h
              refine chainLoop_error_responses requestID req.steps 0 req.initial st m rid ?_
              rw [hcl]
              exact h
          | some p =>
              simp [chainTerminal, List.mem_cons, List.mem_append] at h
              refine chainLoop_error_responses requestID req.steps 0 req.initial st m rid ?_
              rw [hcl]
              exact h
  · intro opName compute decoded st m rid h
    match decoded with
    | Except.error e =>
        simp [handleBinaryOp, RecordError, List.mem_cons, List.mem_append] at h
        exact ⟨h.1, h.2.2⟩
    | Except.ok req =>
        by_cases hval : (req.a.isNaN || req.a.isInf || req.b.isNaN || req.b.isInf) = true
        · simp [handleBinaryOp, hval, RecordError, List.mem_cons, List.mem_append] at h
          exact ⟨h.1, h.2.2⟩
        · have hval' : (req.a.isNaN || req.a.isInf || req.b.isNaN || req.b.isInf) = false :=
            Bool.eq_false_iff.mpr hval
          cases hc : compute req.a req.b with
          | error err =>
              simp [handleBinaryOp, hval', hc, RecordError, List.mem_cons,
                List.mem_append] at h
              exact ⟨h.1, h.2.2⟩
          | ok result =>
              simp [handleBinaryOp, hval', hc, List.mem_cons, List.mem_append] at h

/-- Witness for C4: at the empty-step chain failure, the one failure response
the handler writes has status 400 and the scope's request identity. -/
theorem error_response_shape_spec_witness :
    Event.writeResponse 400 (Body.errorJson "no steps provided" "req-5") ∈
      Chain (Except.ok ⟨F.fin 1, []⟩) "req-5" ∧
    (400 = 400 ∧ "req-5" = "req-5") :=
  ⟨by decide,
   (error_response_shape_spec "req-5").1 (Except.ok ⟨F.fin 1, []⟩) 400
     "no steps provided" "req-5" (by decide)⟩

/-- Counterexample to C6 as stated: at the excluded liveness path `/health`
the router produces neither an `X-Request-ID` response header nor a
`request completed` structured log (and opens no span): the excluded paths
are registered outside the middleware group, so they do not receive a
request identity or a completion log. -/
theorem excluded_paths_counterexample :
    (NewRouter "id-1" ⟨"GET", "/health", Except.error "EOF", Except.error "EOF"⟩).filter
      isXRequestIDHeader = [] ∧
    (NewRouter "id-1" ⟨"GET", "/health", Except.error "EOF", Except.error "EOF"⟩).filter
      isCompletionLog = [] ∧
    (NewRouter "id-1" ⟨"GET", "/health", Except.error "EOF", Except.error "EOF"⟩).filter
      isSpanStartEvent = [] :=
  ⟨rfl, rfl, rfl⟩

/-- C6 (amended): the excluded paths `/health` and `/metrics` are outside the
router's middleware group, so no span is created for them — the tracing
filter also marks them untraced — but, contrary to the original claim, they
also bypass the request-identity and logging middlewares: no `X-Request-ID`
header is set and no structured completion log is produced.  Routes inside
the group (e.g. `/calculator/chain`) do receive both. -/
theorem excluded_paths_amended (genID method : String)
    (cb : Except String CalcRequest) (chb : Except String ChainRequest) :
    (shouldTraceRequest "/health" = false ∧ shouldTraceRequest "/metrics" = false) ∧
    (NewRouter genID ⟨method, "/health", cb, chb⟩).countP isSpanStartEvent = 0 ∧
    (NewRouter genID ⟨method, "/health", cb, chb⟩).countP isXRequestIDHeader = 0 ∧
    (NewRouter genID ⟨method, "/health", cb, chb⟩).countP isCompletionLog = 0 ∧
    (NewRouter genID ⟨method, "/metrics", cb, chb⟩).countP isSpanStartEvent = 0 ∧
    (NewRouter genID ⟨method, "/metrics", cb, chb⟩).countP isXRequestIDHeader = 0 ∧
    (NewRouter genID ⟨method, "/metrics", cb, chb⟩).countP isCompletionLog = 0 ∧
    (NewRouter genID
        ⟨method, "/calculator/chain", Except.error "EOF", Except.error "EOF"⟩).countP
      isXRequestIDHeader = 1 ∧
    (NewRouter genID
        ⟨method, "/calculator/chain", Except.error "EOF", Except.error "EOF"⟩).countP
      isCompletionLog = 1 :=
  ⟨⟨rfl, rfl⟩, rfl, rfl, rfl, rfl, rfl, rfl, rfl, rfl⟩

end GoObs
